import Mathlib

/-!
Verification of the sensory-preference synchronization store of the
NVLP front end (`src/context/SensoryContext.jsx`), together with the
`smartTag` bionic-reading transformation.  The JavaScript code is
shallowly embedded: the synchronous block of `updatePreference` up to the
`await` becomes `updatePreferenceStart`, the continuation after the
network call resolves becomes `updatePreferenceResolve`, the
user-profile hydration effect becomes `hydrate`, the logout effect
becomes `resetOnLogout`, and the status auto-clear timers become
`fireStatusTimeout`.  JavaScript primitive values are embedded as
`JSVal`, with truthiness mirroring the `||` defaulting used by the code.
-/

/-- JavaScript primitive values as they may appear in a preference field
or a remote profile. -/
inductive JSVal where
  | undefined : JSVal
  | null : JSVal
  | bool (b : Bool) : JSVal
  | num (n : Int) : JSVal
  | str (s : String) : JSVal
deriving DecidableEq, Repr

/-- JavaScript truthiness for `JSVal`. -/
def JSVal.truthy : JSVal → Bool
  | .undefined => false
  | .null => false
  | .bool b => b
  | .num n => n != 0
  | .str s => s != ""

/-- JavaScript `a || b`. -/
def jsOr (a b : JSVal) : JSVal := if a.truthy then a else b

/-- The in-memory preference set (`preferencesRef.current`): six fixed
fields.  Field values are raw `JSVal`s, exactly as JavaScript stores
whatever value was assigned. -/
structure PrefSet where
  dark_mode : JSVal
  low_audio : JSVal
  reduce_animations : JSVal
  dyslexic_font : JSVal
  bionic_reading : JSVal
  font_size : JSVal
deriving DecidableEq, Repr

/-- The initial / logout-reset preference values. -/
def defaultPrefs : PrefSet :=
  { dark_mode := .bool false
    low_audio := .bool false
    reduce_animations := .bool false
    dyslexic_font := .bool false
    bionic_reading := .bool false
    font_size := .str "medium" }

/-- The six recognized toggle names (the cases of the `switch` in
`updatePreference`). -/
inductive PrefName where
  | dark_mode | low_audio | reduce_animations
  | dyslexic_font | bionic_reading | font_size
deriving DecidableEq, Repr

/-- Read one field of the preference set. -/
def PrefSet.get (p : PrefSet) : PrefName → JSVal
  | .dark_mode => p.dark_mode
  | .low_audio => p.low_audio
  | .reduce_animations => p.reduce_animations
  | .dyslexic_font => p.dyslexic_font
  | .bionic_reading => p.bionic_reading
  | .font_size => p.font_size

/-- Write one field of the preference set. -/
def PrefSet.set (p : PrefSet) (n : PrefName) (v : JSVal) : PrefSet :=
  match n with
  | .dark_mode => { p with dark_mode := v }
  | .low_audio => { p with low_audio := v }
  | .reduce_animations => { p with reduce_animations := v }
  | .dyslexic_font => { p with dyslexic_font := v }
  | .bionic_reading => { p with bionic_reading := v }
  | .font_size => { p with font_size := v }

/-- The string-to-case dispatch of the `switch (preference)` statement:
recognized names map to their field, everything else falls to the
`default` branch. -/
def recognizedName : String → Option PrefName
  | "dark_mode" => some .dark_mode
  | "low_audio" => some .low_audio
  | "reduce_animations" => some .reduce_animations
  | "dyslexic_font" => some .dyslexic_font
  | "bionic_reading" => some .bionic_reading
  | "font_size" => some .font_size
  | _ => none

/-- The transient saving-status field (`savingStatus`). -/
inductive Status where
  | idle | saving | saved | error
deriving DecidableEq, Repr

/-- The store state: `preferencesRef.current`, `savingStatus`,
`requestIdRef.current`, `pendingRequestsRef.current` (kept as an `Int`
so that the non-negativity invariant is a statement, not a type-level
triviality), and a count of `onAuthFailure` invocations. -/
structure SensoryState where
  prefs : PrefSet
  status : Status
  requestId : Nat
  pending : Int
  authCalls : Nat
deriving DecidableEq, Repr

/-- The data captured by one `updatePreference` call when it dispatches
its network request: its sequence number (`currentRequestId`), the field
it changed, `previousValue`, the full snapshot `previousPreferences`,
and the full preference set sent to the backend
(`currentPreferences`, the body of `api.patchUserProfile`). -/
structure Request where
  id : Nat
  name : PrefName
  prevValue : JSVal
  prevPrefs : PrefSet
  payload : PrefSet
deriving DecidableEq, Repr

/-- Resolution of the backend call: success, or failure carrying
`err.status` (absent for network errors). -/
inductive Outcome where
  | success : Outcome
  | failure (httpStatus : Option Int) : Outcome
deriving DecidableEq, Repr

/-- The synchronous part of `updatePreference(preference, value)`, from
entry to the `await`:
null-user guard; `requestIdRef.current += 1`; snapshot
`previousPreferences`; `setSavingStatus('saving')`; the `switch` that
either applies the optimistic update or (default branch) resets the
status to `'idle'` and returns; `pendingRequestsRef.current += 1`; and
the capture of `currentPreferences` for the request body.  Returns the
new state and the dispatched request, if any. -/
def updatePreferenceStart (s : SensoryState) (userPresent : Bool)
    (preference : String) (value : JSVal) : SensoryState × Option Request :=
  if userPresent = false then (s, none)
  else
    match recognizedName preference with
    | none =>
        ({ s with requestId := s.requestId + 1, status := Status.idle }, none)
    | some n =>
        let rid := s.requestId + 1
        let prevValue := s.prefs.get n
        let prevPrefs := s.prefs
        let newPrefs := s.prefs.set n value
        ({ s with requestId := rid
                  status := Status.saving
                  prefs := newPrefs
                  pending := s.pending + 1 },
         some { id := rid, name := n, prevValue := prevValue
                prevPrefs := prevPrefs, payload := newPrefs })

/-- `if (pendingRequestsRef.current > 0) pendingRequestsRef.current -= 1`. -/
def decPending (s : SensoryState) : SensoryState :=
  if 0 < s.pending then { s with pending := s.pending - 1 } else s

/-- The continuation of `updatePreference` after the network call
resolves.  On success: guarded decrement, and status `'saved'` only when
this is still the latest request.  On a 401 failure: guarded decrement
and invocation of `onAuthFailure` (when registered), with no rollback
and no status change.  On any other failure: guarded decrement, and —
only when still the latest request — rollback of the whole set to
`previousPreferences` and status `'error'`. -/
def updatePreferenceResolve (s : SensoryState) (r : Request) (o : Outcome)
    (hasAuthCallback : Bool) : SensoryState :=
  match o with
  | .success =>
      let s1 := decPending s
      if r.id = s1.requestId then { s1 with status := Status.saved } else s1
  | .failure httpStatus =>
      if httpStatus = some 401 then
        let s1 := decPending s
        if hasAuthCallback then { s1 with authCalls := s1.authCalls + 1 } else s1
      else
        let s1 := decPending s
        if r.id = s1.requestId then
          { s1 with prefs := r.prevPrefs, status := Status.error }
        else s1

/-- The body of the `setTimeout` callbacks that clear the transient
status: reset to `'idle'` only if no requests are pending. -/
def fireStatusTimeout (s : SensoryState) : SensoryState :=
  if s.pending = 0 then { s with status := Status.idle } else s

/-- The normalization applied to a remote profile's preference bundle
(`prefs.dark_mode || false`, …, `prefs.font_size || 'medium'`). -/
def normalizePrefs (prefs : PrefSet) : PrefSet :=
  { dark_mode := jsOr prefs.dark_mode (.bool false)
    low_audio := jsOr prefs.low_audio (.bool false)
    reduce_animations := jsOr prefs.reduce_animations (.bool false)
    dyslexic_font := jsOr prefs.dyslexic_font (.bool false)
    bionic_reading := jsOr prefs.bionic_reading (.bool false)
    font_size := jsOr prefs.font_size (.str "medium") }

/-- The hydration effect (`useEffect` on `user`): when the user object
carries a preference bundle, build `newPrefs` by normalization and adopt
it only if no request is pending and it differs field-wise from the
current set. -/
def hydrate (s : SensoryState) (userPrefs : Option PrefSet) : SensoryState :=
  match userPrefs with
  | none => s
  | some prefs =>
      let newPrefs := normalizePrefs prefs
      let prefsChanged := s.prefs ≠ newPrefs
      if s.pending = 0 ∧ prefsChanged then { s with prefs := newPrefs } else s

/-- The logout effect (`useEffect` when `user` becomes null): defaults,
status `'idle'`, pending counter zeroed.  `requestIdRef` is not reset by
the code. -/
def resetOnLogout (s : SensoryState) : SensoryState :=
  { s with prefs := defaultPrefs, status := Status.idle, pending := 0 }

/- ### The `smartTag` bionic-reading transformation

Text is embedded as `List Char` (a JavaScript string is a sequence of
code units; the empty list is the falsy empty string).  `splitSpace`
embeds `text.split(' ')`, and the output is a list of rendered segments,
`Seg.bold` standing for a `<strong>` element and `Seg.plain` for a bare
text node. -/

/-- One rendered output segment of `smartTag`. -/
inductive Seg where
  | plain (s : List Char) : Seg
  | bold (s : List Char) : Seg
deriving DecidableEq, Repr

/-- The text content of a segment. -/
def Seg.content : Seg → List Char
  | .plain s => s
  | .bold s => s

/-- The result of `smartTag`: either the input returned unchanged, or a
list of tagged segments. -/
inductive SmartText where
  | raw (s : List Char) : SmartText
  | tagged (segs : List Seg) : SmartText
deriving DecidableEq, Repr

/-- The plain-text rendering of a `smartTag` result (concatenation of
all segment contents, bold or not). -/
def SmartText.render : SmartText → List Char
  | .raw s => s
  | .tagged segs => (segs.map Seg.content).flatten

/-- JavaScript `text.split(' ')`: splits on every single space, keeping
empty words, and yields `[""]` on the empty string. -/
def splitSpace : List Char → List (List Char)
  | [] => [[]]
  | c :: rest =>
      match splitSpace rest with
      | [] => [[]]
      | w :: ws => if c = ' ' then [] :: w :: ws else (c :: w) :: ws

/-- The per-word body of the `words.map` in `smartTag`: words of length
at most 2 stay plain; longer words are split after
`Math.ceil(word.length / 2)` characters into a bold part and a plain
remainder.  `hasSpace` is `index < words.length - 1`, appending the
single separating space. -/
def tagWord (word : List Char) (hasSpace : Bool) : List Seg :=
  if word.length ≤ 2 then
    [Seg.plain (word ++ (if hasSpace then [' '] else []))]
  else
    let boldLength := (word.length + 1) / 2
    [Seg.bold (word.take boldLength),
     Seg.plain (word.drop boldLength ++ (if hasSpace then [' '] else []))]

/-- `smartTag(text)`: returns the text unchanged when bionic reading is
off or the text is empty (falsy); otherwise splits on spaces and tags
every word. -/
def smartTag (bionicReading : Bool) (text : List Char) : SmartText :=
  if bionicReading = false ∨ text = [] then .raw text
  else
    let words := splitSpace text
    .tagged ((words.enum.map
      (fun p => tagWord p.2 (decide (p.1 < words.length - 1)))).flatten)

/-- Words joined back with single separating spaces — the shape of the
text that `splitSpace` decomposes; used to state that `smartTag`
preserves the character content of its input. -/
def joinWithSpace : List (List Char) → List Char
  | [] => []
  | [w] => w
  | w :: ws => w ++ ' ' :: joinWithSpace ws

/-- Concrete quiescent store state (session start). -/
def exampleState : SensoryState :=
  { prefs := defaultPrefs, status := Status.idle, requestId := 0,
    pending := 0, authCalls := 0 }

/-- `defaultPrefs` with dark mode switched on. -/
def examplePrefs1 : PrefSet := { defaultPrefs with dark_mode := .bool true }

/-- `defaultPrefs` with dark mode and low audio switched on. -/
def examplePrefs2 : PrefSet :=
  { defaultPrefs with dark_mode := .bool true, low_audio := .bool true }

/-- The state right after dispatching `setPreference('dark_mode', true)`
from `exampleState`. -/
def exampleDispatched : SensoryState :=
  { prefs := examplePrefs1, status := Status.saving, requestId := 1,
    pending := 1, authCalls := 0 }

/-- The request dispatched by that call. -/
def exampleRequest : Request :=
  { id := 1, name := .dark_mode, prevValue := .bool false,
    prevPrefs := defaultPrefs, payload := examplePrefs1 }

/-- The state right after additionally dispatching
`setPreference('low_audio', true)`. -/
def exampleDispatched2 : SensoryState :=
  { prefs := examplePrefs2, status := Status.saving, requestId := 2,
    pending := 2, authCalls := 0 }

/-- The request dispatched by that second call. -/
def exampleRequest2 : Request :=
  { id := 2, name := .low_audio, prevValue := .bool false,
    prevPrefs := examplePrefs1, payload := examplePrefs2 }

/- ### Helper lemmas -/

/-- Reading back the field just written. -/
theorem PrefSet.get_set (p : PrefSet) (n : PrefName) (v : JSVal) :
    (p.set n v).get n = v := by
  cases n <;> rfl

/-- The dispatch of a recognized preference, in closed form. -/
theorem start_recognized (s : SensoryState) (preference : String) (n : PrefName)
    (v : JSVal) (hn : recognizedName preference = some n) :
    updatePreferenceStart s true preference v =
      ({ s with requestId := s.requestId + 1
                status := Status.saving
                prefs := s.prefs.set n v
                pending := s.pending + 1 },
       some { id := s.requestId + 1, name := n, prevValue := s.prefs.get n
              prevPrefs := s.prefs, payload := s.prefs.set n v }) := by
  simp [updatePreferenceStart, hn]

/-- The dispatch of an unrecognized preference, in closed form: the
`default` branch of the `switch`. -/
theorem start_unrecognized (s : SensoryState) (preference : String)
    (v : JSVal) (hn : recognizedName preference = none) :
    updatePreferenceStart s true preference v =
      ({ s with requestId := s.requestId + 1, status := Status.idle },
       none) := by
  simp [updatePreferenceStart, hn]

theorem decPending_requestId (s : SensoryState) :
    (decPending s).requestId = s.requestId := by
  unfold decPending; split <;> rfl

theorem resolve_requestId (s : SensoryState) (r : Request) (o : Outcome) (cb : Bool) :
    (updatePreferenceResolve s r o cb).requestId = s.requestId := by
  cases o <;> simp only [updatePreferenceResolve, decPending] <;>
    split_ifs <;> rfl

/-- A superseded (stale) resolution never touches the preference set or
the status field, whatever its outcome. -/
theorem resolve_stale (s : SensoryState) (r : Request) (o : Outcome) (cb : Bool)
    (h : r.id ≠ s.requestId) :
    (updatePreferenceResolve s r o cb).prefs = s.prefs ∧
    (updatePreferenceResolve s r o cb).status = s.status := by
  cases o <;> simp only [updatePreferenceResolve, decPending] <;>
    split_ifs <;> simp_all

/- ### Claim theorems -/

/-- C3: with a user present, a `setPreference` call on a recognized
toggle immediately applies the value to the in-memory set and moves the
status to `saving`; when its persistence call succeeds while it is still
the most recently issued call, the toggle keeps the applied value, the
status becomes `saved`, and the status timer then returns it to
`idle` when nothing is pending. -/
theorem claim3_optimistic_update_then_saved (s0 s1 : SensoryState)
    (preference : String) (n : PrefName) (v : JSVal) (r : Request) (cb : Bool)
    (hn : recognizedName preference = some n)
    (hd : updatePreferenceStart s0 true preference v = (s1, some r))
    (hp : s0.pending = 0) :
    s1.prefs = s0.prefs.set n v ∧ s1.prefs.get n = v ∧
    s1.status = Status.saving ∧
    (updatePreferenceResolve s1 r .success cb).prefs = s0.prefs.set n v ∧
    (updatePreferenceResolve s1 r .success cb).prefs.get n = v ∧
    (updatePreferenceResolve s1 r .success cb).status = Status.saved ∧
    (updatePreferenceResolve s1 r .success cb).pending = 0 ∧
    (fireStatusTimeout (updatePreferenceResolve s1 r .success cb)).status
      = Status.idle := by
  rw [start_recognized s0 preference n v hn] at hd
  injection hd with h1 h2
  injection h2 with h2
  subst h1; subst h2
  simp [updatePreferenceResolve, decPending, fireStatusTimeout,
    PrefSet.get_set, hp]

/-- C2: a failed (non-401) persistence that is still the latest call
rolls the whole in-memory set back to the snapshot taken before the
call, sets the status to `error`, and the status timer then returns it
to `idle` when nothing is pending. -/
theorem claim2_full_rollback_on_failure (s0 s1 : SensoryState)
    (preference : String) (n : PrefName) (v : JSVal) (r : Request)
    (hs : Option Int) (cb : Bool)
    (hn : recognizedName preference = some n)
    (hd : updatePreferenceStart s0 true preference v = (s1, some r))
    (hauth : hs ≠ some 401)
    (hp : s0.pending = 0) :
    (updatePreferenceResolve s1 r (.failure hs) cb).prefs = s0.prefs ∧
    (updatePreferenceResolve s1 r (.failure hs) cb).status = Status.error ∧
    (updatePreferenceResolve s1 r (.failure hs) cb).pending = 0 ∧
    (fireStatusTimeout (updatePreferenceResolve s1 r (.failure hs) cb)).status
      = Status.idle := by
  rw [start_recognized s0 preference n v hn] at hd
  injection hd with h1 h2
  injection h2 with h2
  subst h1; subst h2
  simp [updatePreferenceResolve, decPending, fireStatusTimeout, hauth, hp]

/-- C4: every dispatched persistence request carries the entire
`PreferenceSet` as its body, equal to the in-memory set right after this
call's own optimistic update (the state at dispatch time). -/
theorem claim4_payload_is_full_current_set (s0 s1 : SensoryState)
    (preference : String) (n : PrefName) (v : JSVal) (r : Request)
    (hn : recognizedName preference = some n)
    (hd : updatePreferenceStart s0 true preference v = (s1, some r)) :
    r.payload = s1.prefs ∧ r.payload = s0.prefs.set n v ∧
    (∀ m : PrefName, r.payload.get m = s1.prefs.get m) := by
  rw [start_recognized s0 preference n v hn] at hd
  injection hd with h1 h2
  injection h2 with h2
  subst h1; subst h2
  simp

/-- C5 (amended): an unrecognized toggle name, with a user present,
leaves the preference set and the pending counter unchanged and sends no
request, but it does write the status field: the status ends at `idle`
(after transiently being set to `saving`), and the sequence counter is
still incremented. -/
theorem claim5_unrecognized_rejected (s : SensoryState) (preference : String)
    (v : JSVal) (hn : recognizedName preference = none) :
    (updatePreferenceStart s true preference v).1.prefs = s.prefs ∧
    (updatePreferenceStart s true preference v).1.pending = s.pending ∧
    (updatePreferenceStart s true preference v).1.status = Status.idle ∧
    (updatePreferenceStart s true preference v).1.requestId = s.requestId + 1 ∧
    (updatePreferenceStart s true preference v).2 = none := by
  simp [updatePreferenceStart, hn]

/-- C5 counterexample: from a state whose status is `saved`, a
`setPreference` call with an unrecognized name changes the status field
to `idle`, so the status is not left unchanged as the claim states. -/
theorem claim5_counterexample :
    (updatePreferenceStart
      { prefs := defaultPrefs, status := Status.saved, requestId := 3,
        pending := 0, authCalls := 0 } true "not_a_toggle" (.bool true)).1.status
      ≠ Status.saved := by
  decide

/-- C7: when the persistence call of a dispatched request fails with
HTTP 401 and an auth-failure callback is registered, the callback is
invoked exactly once, the in-memory set and status are not touched (no
rollback), and the pending counter is decremented. -/
theorem claim7_auth_failure_callback (s0 s1 : SensoryState)
    (preference : String) (n : PrefName) (v : JSVal) (r : Request)
    (hn : recognizedName preference = some n)
    (hd : updatePreferenceStart s0 true preference v = (s1, some r))
    (hp : 0 ≤ s0.pending) :
    (updatePreferenceResolve s1 r (.failure (some 401)) true).authCalls
      = s0.authCalls + 1 ∧
    (updatePreferenceResolve s1 r (.failure (some 401)) true).prefs = s1.prefs ∧
    (updatePreferenceResolve s1 r (.failure (some 401)) true).status = s1.status ∧
    s1.pending = s0.pending + 1 ∧
    (updatePreferenceResolve s1 r (.failure (some 401)) true).pending
      = s0.pending := by
  rw [start_recognized s0 preference n v hn] at hd
  injection hd with h1 h2
  injection h2 with h2
  subst h1; subst h2
  have hpos : (0 : Int) < s0.pending + 1 := by omega
  simp [updatePreferenceResolve, decPending, hpos]

/-- C1: calls A then B (B issued strictly after A), with B's response
arriving first and A's only afterwards: whatever A's outcome (success,
plain failure, or 401), its late resolution leaves the preference set
and the status exactly as B's own resolution established them. -/
theorem claim1_superseded_resolution_is_suppressed (s0 s1 s2 : SensoryState)
    (nameA nameB : String) (nA nB : PrefName) (vA vB : JSVal)
    (rA rB : Request) (oA oB : Outcome) (cbA cbB : Bool)
    (hnA : recognizedName nameA = some nA)
    (hnB : recognizedName nameB = some nB)
    (hd1 : updatePreferenceStart s0 true nameA vA = (s1, some rA))
    (hd2 : updatePreferenceStart s1 true nameB vB = (s2, some rB)) :
    (updatePreferenceResolve (updatePreferenceResolve s2 rB oB cbB)
        rA oA cbA).prefs
      = (updatePreferenceResolve s2 rB oB cbB).prefs ∧
    (updatePreferenceResolve (updatePreferenceResolve s2 rB oB cbB)
        rA oA cbA).status
      = (updatePreferenceResolve s2 rB oB cbB).status := by
  rw [start_recognized s0 nameA nA vA hnA] at hd1
  injection hd1 with h1 h1r
  injection h1r with h1r
  rw [start_recognized s1 nameB nB vB hnB] at hd2
  injection hd2 with h2 h2r
  injection h2r with h2r
  have hidA : rA.id = s0.requestId + 1 := by rw [← h1r]
  have hreq1 : s1.requestId = s0.requestId + 1 := by rw [← h1]
  have hreq2 : s2.requestId = s1.requestId + 1 := by rw [← h2]
  apply resolve_stale
  rw [resolve_requestId, hidA, hreq2, hreq1]
  omega

/-- C6: hydration with a nonzero pending counter never alters the
in-memory set; and whenever hydration does alter it, the counter was
zero, the user carried a preference bundle whose normalization differs
from the current set, and that normalization is what was adopted. -/
theorem claim6_hydrate_guard (s : SensoryState) (userPrefs : Option PrefSet) :
    (s.pending ≠ 0 → (hydrate s userPrefs).prefs = s.prefs) ∧
    ((hydrate s userPrefs).prefs ≠ s.prefs →
      s.pending = 0 ∧ ∃ prefs, userPrefs = some prefs ∧
        normalizePrefs prefs ≠ s.prefs ∧
        (hydrate s userPrefs).prefs = normalizePrefs prefs) := by
  constructor
  · intro hp
    cases userPrefs with
    | none => rfl
    | some prefs =>
        simp only [hydrate]
        split_ifs with h
        · exact absurd h.1 hp
        · rfl
  · intro hch
    cases userPrefs with
    | none => exact absurd rfl hch
    | some prefs =>
        simp only [hydrate] at hch ⊢
        split_ifs at hch ⊢ with h
        · exact ⟨h.1, prefs, rfl, fun he => h.2 he.symm, rfl⟩
        · exact absurd rfl hch

/-- C8 (amended): hydration normalization copies each recognized field
from the remote bundle when that field's value is truthy, and
substitutes the fixed default (`false`, resp. `'medium'`) only when the
value is falsy — which covers missing (`undefined`)/`null` fields, but
a truthy value of the wrong type is copied as-is, not defaulted. -/
theorem claim8_hydrate_defaults (prefs : PrefSet) :
    (normalizePrefs prefs).dark_mode
      = (if prefs.dark_mode.truthy then prefs.dark_mode else .bool false) ∧
    (normalizePrefs prefs).low_audio
      = (if prefs.low_audio.truthy then prefs.low_audio else .bool false) ∧
    (normalizePrefs prefs).reduce_animations
      = (if prefs.reduce_animations.truthy then prefs.reduce_animations
         else .bool false) ∧
    (normalizePrefs prefs).dyslexic_font
      = (if prefs.dyslexic_font.truthy then prefs.dyslexic_font
         else .bool false) ∧
    (normalizePrefs prefs).bionic_reading
      = (if prefs.bionic_reading.truthy then prefs.bionic_reading
         else .bool false) ∧
    (normalizePrefs prefs).font_size
      = (if prefs.font_size.truthy then prefs.font_size
         else .str "medium") ∧
    normalizePrefs { dark_mode := .undefined, low_audio := .undefined,
                     reduce_animations := .undefined,
                     dyslexic_font := .undefined,
                     bionic_reading := .undefined,
                     font_size := .undefined }
      = defaultPrefs := by
  refine ⟨rfl, rfl, rfl, rfl, rfl, rfl, rfl⟩

/-- C8 counterexample: a remote profile whose `dark_mode` field holds
the malformed (non-boolean) but truthy string `"no"` is not replaced by
the default `false`: normalization keeps the string as-is. -/
theorem claim8_counterexample :
    (normalizePrefs { dark_mode := .str "no", low_audio := .bool false,
                      reduce_animations := .bool false,
                      dyslexic_font := .bool false,
                      bionic_reading := .bool false,
                      font_size := .str "medium" }).dark_mode
      = .str "no" ∧
    (normalizePrefs { dark_mode := .str "no", low_audio := .bool false,
                      reduce_animations := .bool false,
                      dyslexic_font := .bool false,
                      bionic_reading := .bool false,
                      font_size := .str "medium" }).dark_mode
      ≠ .bool false := by
  refine ⟨by decide, by decide⟩

/-- C9: every operation of the store preserves non-negativity of the
pending-request counter — the dispatch, every resolution branch
(success, plain failure, 401), hydration, the logout reset, and the
status timers. -/
theorem claim9_pending_counter_nonnegative (s : SensoryState) (u : Bool)
    (preference : String) (v : JSVal) (r : Request) (o : Outcome) (cb : Bool)
    (userPrefs : Option PrefSet) (h : 0 ≤ s.pending) :
    0 ≤ (updatePreferenceStart s u preference v).1.pending ∧
    0 ≤ (updatePreferenceResolve s r o cb).pending ∧
    0 ≤ (hydrate s userPrefs).pending ∧
    0 ≤ (resetOnLogout s).pending ∧
    0 ≤ (fireStatusTimeout s).pending := by
  refine ⟨?_, ?_, ?_, ?_, ?_⟩
  · cases u with
    | false => exact h
    | true =>
        cases hrec : recognizedName preference with
        | none => rw [start_unrecognized s preference v hrec]; exact h
        | some n => rw [start_recognized s preference n v hrec]; dsimp; omega
  · cases o <;> simp only [updatePreferenceResolve, decPending] <;>
      split_ifs <;> (try dsimp only) <;> omega
  · cases userPrefs with
    | none => exact h
    | some prefs =>
        simp only [hydrate]
        split_ifs <;> exact h
  · exact le_refl 0
  · unfold fireStatusTimeout
    split_ifs <;> exact h

/- ### Lemmas about `smartTag` -/

/-- The rendered text of one tagged word is the word itself followed by
its separator. -/
theorem tagWord_render (w : List Char) (sp : Bool) :
    ((tagWord w sp).map Seg.content).flatten
      = w ++ (if sp then [' '] else []) := by
  unfold tagWord
  split_ifs <;> simp [Seg.content]
  all_goals
    first
      | exact List.take_append_drop ((w.length + 1) / 2) w
      | rw [← List.append_assoc, List.take_append_drop]

/-- `splitSpace` always yields at least one (possibly empty) word. -/
theorem splitSpace_ne_nil (t : List Char) : splitSpace t ≠ [] := by
  cases t with
  | nil => simp [splitSpace]
  | cons c rest =>
      simp only [splitSpace]
      cases splitSpace rest with
      | nil => simp
      | cons w ws => split_ifs <;> simp

/-- Joining the space-split words with single spaces restores the
original text. -/
theorem joinWithSpace_splitSpace (t : List Char) :
    joinWithSpace (splitSpace t) = t := by
  induction t with
  | nil => rfl
  | cons c rest ih =>
      rcases hsp : splitSpace rest with _ | ⟨w, ws⟩
      · exact absurd hsp (splitSpace_ne_nil rest)
      · rw [hsp] at ih
        simp only [splitSpace, hsp]
        by_cases hc : c = ' '
        · subst hc
          rw [if_pos rfl]
          simp only [joinWithSpace, List.nil_append]
          rw [ih]
        · rw [if_neg hc]
          cases ws with
          | nil =>
              simp only [joinWithSpace] at ih ⊢
              rw [ih]
          | cons x xs =>
              simp only [joinWithSpace, List.cons_append] at ih ⊢
              rw [ih]

/-- Rendering the tagged words of an indexed suffix, where `m` is the
index of the last word, restores the words joined with single spaces. -/
theorem render_tagWords_enumFrom (ws : List (List Char)) (m : Nat) :
    ∀ k : Nat, k + ws.length = m + 1 →
    (((ws.enumFrom k).map
        (fun p => tagWord p.2 (decide (p.1 < m)))).flatten.map
          Seg.content).flatten
      = joinWithSpace ws := by
  induction ws with
  | nil => intro k _; rfl
  | cons w ws' ih =>
      intro k hm
      rw [List.enumFrom_cons]
      simp only [List.map_cons, List.flatten_cons, List.map_append,
        List.flatten_append]
      rw [tagWord_render]
      cases ws' with
      | nil =>
          have hk : ¬ (k < m) := by
            simp only [List.length_cons, List.length_nil] at hm
            omega
          simp [hk, joinWithSpace]
      | cons x xs =>
          have hk : k < m := by
            simp only [List.length_cons] at hm
            omega
          have hm' : (k + 1) + (x :: xs).length = m + 1 := by
            simp only [List.length_cons] at hm ⊢
            omega
          rw [ih (k + 1) hm']
          simp [hk, joinWithSpace]

/-- `smartTag` never changes the rendered character content. -/
theorem smartTag_render (b : Bool) (t : List Char) :
    (smartTag b t).render = t := by
  unfold smartTag
  split_ifs with h
  · rfl
  · push_neg at h
    simp only [SmartText.render]
    have hne := splitSpace_ne_nil t
    have hlen : 0 < (splitSpace t).length := List.length_pos.mpr hne
    have h0 : 0 + (splitSpace t).length = ((splitSpace t).length - 1) + 1 := by
      omega
    rw [show (splitSpace t).enum = (splitSpace t).enumFrom 0 from rfl,
      render_tagWords_enumFrom (splitSpace t) ((splitSpace t).length - 1) 0 h0,
      joinWithSpace_splitSpace]

/-- C10: `smartTag` returns its input unchanged when bionic reading is
off or the text is empty; otherwise its output renders back to exactly
the original character content (word order and separating spaces
preserved), each word of length at most two is kept as a plain
unmodified word, and each longer word becomes a bold prefix of exactly
`ceil(length / 2)` characters followed by the unmodified remainder. -/
theorem claim10_smartTag_bionic (b : Bool) (t : List Char) :
    ((b = false ∨ t = []) → smartTag b t = .raw t) ∧
    (smartTag b t).render = t ∧
    (∀ w sp, w.length ≤ 2 →
        tagWord w sp = [Seg.plain (w ++ (if sp then [' '] else []))]) ∧
    (∀ w sp, 2 < w.length → ∃ pre post,
        tagWord w sp
          = [Seg.bold pre, Seg.plain (post ++ (if sp then [' '] else []))] ∧
        pre.length = (w.length + 1) / 2 ∧ pre ++ post = w) := by
  refine ⟨?_, smartTag_render b t, ?_, ?_⟩
  · intro h
    rw [smartTag, if_pos h]
  · intro w sp hw
    rw [tagWord, if_pos hw]
  · intro w sp hw
    refine ⟨w.take ((w.length + 1) / 2), w.drop ((w.length + 1) / 2),
      ?_, ?_, List.take_append_drop _ w⟩
    · rw [tagWord, if_neg (by omega)]
    · rw [List.length_take]
      omega

/- ### Witnesses -/

/-- Witness for C1 at a concrete pair of calls: dark mode then low
audio from the initial state, the second call's success resolving
first, the first call's failure resolving late. -/
theorem claim1_witness :
    (updatePreferenceResolve (updatePreferenceResolve exampleDispatched2
        exampleRequest2 .success true) exampleRequest
        (.failure (some 500)) true).prefs
      = (updatePreferenceResolve exampleDispatched2 exampleRequest2
          .success true).prefs ∧
    (updatePreferenceResolve (updatePreferenceResolve exampleDispatched2
        exampleRequest2 .success true) exampleRequest
        (.failure (some 500)) true).status
      = (updatePreferenceResolve exampleDispatched2 exampleRequest2
          .success true).status :=
  claim1_superseded_resolution_is_suppressed exampleState exampleDispatched
    exampleDispatched2 "dark_mode" "low_audio" PrefName.dark_mode
    PrefName.low_audio (.bool true) (.bool true) exampleRequest
    exampleRequest2 (.failure (some 500)) .success true true
    (by decide) (by decide) (by decide) (by decide)

/-- Witness for C2 at a concrete failed call: dark mode switched on
from the initial state, then a 500 failure. -/
theorem claim2_witness :
    (updatePreferenceResolve exampleDispatched exampleRequest
        (.failure (some 500)) true).prefs = exampleState.prefs ∧
    (updatePreferenceResolve exampleDispatched exampleRequest
        (.failure (some 500)) true).status = Status.error ∧
    (updatePreferenceResolve exampleDispatched exampleRequest
        (.failure (some 500)) true).pending = 0 ∧
    (fireStatusTimeout (updatePreferenceResolve exampleDispatched
        exampleRequest (.failure (some 500)) true)).status = Status.idle :=
  claim2_full_rollback_on_failure exampleState exampleDispatched "dark_mode"
    PrefName.dark_mode (.bool true) exampleRequest (some 500) true
    (by decide) (by decide) (by decide) (by decide)

/-- Witness for C3 at a concrete successful call: dark mode switched on
from the initial state, then success. -/
theorem claim3_witness :
    exampleDispatched.prefs = exampleState.prefs.set PrefName.dark_mode
      (.bool true) ∧
    exampleDispatched.prefs.get PrefName.dark_mode = .bool true ∧
    exampleDispatched.status = Status.saving ∧
    (updatePreferenceResolve exampleDispatched exampleRequest .success
        true).prefs = exampleState.prefs.set PrefName.dark_mode (.bool true) ∧
    (updatePreferenceResolve exampleDispatched exampleRequest .success
        true).prefs.get PrefName.dark_mode = .bool true ∧
    (updatePreferenceResolve exampleDispatched exampleRequest .success
        true).status = Status.saved ∧
    (updatePreferenceResolve exampleDispatched exampleRequest .success
        true).pending = 0 ∧
    (fireStatusTimeout (updatePreferenceResolve exampleDispatched
        exampleRequest .success true)).status = Status.idle :=
  claim3_optimistic_update_then_saved exampleState exampleDispatched
    "dark_mode" PrefName.dark_mode (.bool true) exampleRequest true
    (by decide) (by decide) (by decide)

/-- Witness for C4 at the same concrete call. -/
theorem claim4_witness :
    exampleRequest.payload = exampleDispatched.prefs ∧
    exampleRequest.payload = exampleState.prefs.set PrefName.dark_mode
      (.bool true) ∧
    (∀ m : PrefName, exampleRequest.payload.get m
      = exampleDispatched.prefs.get m) :=
  claim4_payload_is_full_current_set exampleState exampleDispatched
    "dark_mode" PrefName.dark_mode (.bool true) exampleRequest
    (by decide) (by decide)

/-- Witness for C5 (amended) at a concrete unrecognized name. -/
theorem claim5_witness :
    (updatePreferenceStart exampleState true "not_a_toggle"
        (.bool true)).1.prefs = exampleState.prefs ∧
    (updatePreferenceStart exampleState true "not_a_toggle"
        (.bool true)).1.pending = exampleState.pending ∧
    (updatePreferenceStart exampleState true "not_a_toggle"
        (.bool true)).1.status = Status.idle ∧
    (updatePreferenceStart exampleState true "not_a_toggle"
        (.bool true)).1.requestId = exampleState.requestId + 1 ∧
    (updatePreferenceStart exampleState true "not_a_toggle"
        (.bool true)).2 = none :=
  claim5_unrecognized_rejected exampleState "not_a_toggle" (.bool true)
    (by decide)

/-- Witness for C6 at a concrete in-flight state: a pending request
blocks hydration from a differing remote bundle. -/
theorem claim6_witness :
    (hydrate exampleDispatched (some defaultPrefs)).prefs
      = exampleDispatched.prefs :=
  (claim6_hydrate_guard exampleDispatched (some defaultPrefs)).1 (by decide)

/-- Witness for C7 at a concrete 401 failure of the dark-mode call. -/
theorem claim7_witness :
    (updatePreferenceResolve exampleDispatched exampleRequest
        (.failure (some 401)) true).authCalls = exampleState.authCalls + 1 ∧
    (updatePreferenceResolve exampleDispatched exampleRequest
        (.failure (some 401)) true).prefs = exampleDispatched.prefs ∧
    (updatePreferenceResolve exampleDispatched exampleRequest
        (.failure (some 401)) true).status = exampleDispatched.status ∧
    exampleDispatched.pending = exampleState.pending + 1 ∧
    (updatePreferenceResolve exampleDispatched exampleRequest
        (.failure (some 401)) true).pending = exampleState.pending :=
  claim7_auth_failure_callback exampleState exampleDispatched "dark_mode"
    PrefName.dark_mode (.bool true) exampleRequest
    (by decide) (by decide) (by decide)

/-- Witness for C9 at a concrete state with one pending request. -/
theorem claim9_witness :
    0 ≤ (updatePreferenceStart exampleDispatched true "dark_mode"
          (.bool false)).1.pending ∧
    0 ≤ (updatePreferenceResolve exampleDispatched exampleRequest
          .success true).pending ∧
    0 ≤ (hydrate exampleDispatched (some defaultPrefs)).pending ∧
    0 ≤ (resetOnLogout exampleDispatched).pending ∧
    0 ≤ (fireStatusTimeout exampleDispatched).pending :=
  claim9_pending_counter_nonnegative exampleDispatched true "dark_mode"
    (.bool false) exampleRequest .success true (some defaultPrefs)
    (by decide)

/-- Witness for C10: disabled bionic reading returns the text `"hi"`
unchanged, and the tagged rendering of `"hello"` restores `"hello"`. -/
theorem claim10_witness :
    smartTag false ['h', 'i'] = .raw ['h', 'i'] ∧
    (smartTag true ['h', 'e', 'l', 'l', 'o']).render
      = ['h', 'e', 'l', 'l', 'o'] :=
  ⟨(claim10_smartTag_bionic false ['h', 'i']).1 (Or.inl rfl),
   (claim10_smartTag_bionic true ['h', 'e', 'l', 'l', 'o']).2.1⟩
